import Mathlib

/-!
Verification development for the WordSpark verification script
(jules-scratch/verification/verify.py).

The script is a single linear procedure driving a headless browser:
launch, new context, new page (all before the try block), then inside a
try block: goto, a non-waiting visibility probe for the "WordSpark"
heading, a conditional login branch (two fills, a click, a screenshot),
a bounded wait for the "Vocabulary Lists" heading, a dashboard
screenshot, a visibility assertion and click on the first "Play Story"
button, a wait for a "Story:" heading, and a story-page screenshot; the
finally clause closes the browser.

The embedding models each library call as an attempted event paired with
a success flag drawn from an environment; exception propagation is the
usual short-circuit on the first failed step, and the finally clause
appends the close event whenever the try block was entered.
-/

namespace Verify

/-- Fixed navigation target of the script (page.goto argument). -/
def targetUrl : String := "http://localhost:8080/"

/-- Fixed path of the login-confirmation screenshot. -/
def afterLoginPath : String := "jules-scratch/verification/after_login.png"

/-- Fixed path of the dashboard screenshot. -/
def dashboardPath : String := "jules-scratch/verification/dashboard.png"

/-- Fixed path of the story-page screenshot. -/
def storyPagePath : String := "jules-scratch/verification/story_page.png"

/-- Fixed literal email filled into the login form. -/
def loginEmail : String := "test@example.com"

/-- Fixed literal password filled into the login form. -/
def loginPassword : String := "password"

/-- Explicit timeout (milliseconds) passed to the Vocabulary Lists wait. -/
def vocabTimeoutMs : Nat := 10000

/-- One observable operation issued by the script to the automation
library or the filesystem.  The timeout of an expectVisible is the
explicit argument when one is passed, none when the library default
applies.  The flag on click and expectVisible records whether the
locator was narrowed with .first. -/
inductive Event where
  | launch : Event
  | newContext : Event
  | newPage : Event
  | goto : String → Event
  | isVisibleCheck : (role : String) → (name : String) → (result : Bool) → Event
  | fill : (label : String) → (text : String) → Event
  | click : (role : String) → (name : String) → (useFirst : Bool) → Event
  | expectVisible : (role : String) → (name : String) → (useFirst : Bool) →
      (timeoutMs : Option Nat) → Event
  | screenshot : (path : String) → Event
  | close : Event
deriving DecidableEq

/-- A trace entry: the attempted operation together with whether it
succeeded.  A failed entry is always the last entry contributed by the
block that attempted it. -/
abbrev Trace := List (Event × Bool)

/-- Environment of one run: for every fallible library call, whether it
succeeds, and the instantaneous result of the WordSpark visibility
probe at the moment the probe executes. -/
structure Env where
  launchOk : Bool
  newContextOk : Bool
  newPageOk : Bool
  gotoOk : Bool
  wordSparkVisible : Bool
  fillEmailOk : Bool
  fillPasswordOk : Bool
  signInClickOk : Bool
  afterLoginShotOk : Bool
  vocabVisibleOk : Bool
  dashboardShotOk : Bool
  playButtonVisibleOk : Bool
  playClickOk : Bool
  storyVisibleOk : Bool
  storyShotOk : Bool
deriving DecidableEq

/-- One attempted operation: the trace records the attempt and its
outcome; the run continues only on success. -/
def stepOp (e : Event) (ok : Bool) : Trace × Bool := ([(e, ok)], ok)

/-- Sequence two blocks with exception semantics: if the first block
fails, the second never executes and the failure propagates. -/
def andThen (a b : Trace × Bool) : Trace × Bool :=
  if a.2 then (a.1 ++ b.1, b.2) else a

/-- The login branch taken when the WordSpark heading is visible:
fill Email, fill Password, click Sign In, screenshot after_login.png
(verify.py lines 13-16). -/
def loginBranch (env : Env) : Trace × Bool :=
  andThen (stepOp (Event.fill "Email" loginEmail) env.fillEmailOk)
  (andThen (stepOp (Event.fill "Password" loginPassword) env.fillPasswordOk)
  (andThen (stepOp (Event.click "button" "Sign In" false) env.signInClickOk)
  (stepOp (Event.screenshot afterLoginPath) env.afterLoginShotOk)))

/-- The tail after the Play Story click: the implicit-timeout wait for
a heading matching "Story:" and the story-page screenshot
(verify.py lines 31-34). -/
def storyTail (env : Env) : Trace × Bool :=
  andThen (stepOp (Event.expectVisible "heading" "Story:" false none)
      env.storyVisibleOk)
  (stepOp (Event.screenshot storyPagePath) env.storyShotOk)

/-- The Play Story interaction: visibility assertion on the .first
locator with the library default timeout, then the click, then the
story tail (verify.py lines 26-34). -/
def playBlock (env : Env) : Trace × Bool :=
  andThen (stepOp (Event.expectVisible "button" "Play Story" true none)
      env.playButtonVisibleOk)
  (andThen (stepOp (Event.click "button" "Play Story" true) env.playClickOk)
  (storyTail env))

/-- The dashboard screenshot followed by the Play Story interaction
(verify.py lines 23-34). -/
def afterVocab (env : Env) : Trace × Bool :=
  andThen (stepOp (Event.screenshot dashboardPath) env.dashboardShotOk)
  (playBlock env)

/-- Everything after the (possibly skipped) login branch: the bounded
Vocabulary Lists wait, then the dashboard screenshot and the rest
(verify.py lines 20-34). -/
def postLogin (env : Env) : Trace × Bool :=
  andThen (stepOp (Event.expectVisible "heading" "Vocabulary Lists" false
      (some vocabTimeoutMs)) env.vocabVisibleOk)
  (afterVocab env)

/-- Body of the try block (verify.py lines 9-34): goto, the non-waiting
WordSpark probe, the conditional login branch, then postLogin.  The
probe is infallible and carries the instantaneous visibility result. -/
def tryBody (env : Env) : Trace × Bool :=
  andThen (stepOp (Event.goto targetUrl) env.gotoOk)
  (andThen ([(Event.isVisibleCheck "heading" "WordSpark" env.wordSparkVisible, true)], true)
  (andThen (if env.wordSparkVisible then loginBranch env else ([], true))
  (postLogin env)))

/-- The whole run (verify.py lines 3-37): launch, new_context and
new_page are attempted before the try block, so a failure there skips
the finally clause; once the try block is entered, the finally clause
appends the browser close whether or not the body failed, and the
body's failure then propagates. -/
def run (env : Env) : Trace × Bool :=
  andThen (stepOp Event.launch env.launchOk)
  (andThen (stepOp Event.newContext env.newContextOk)
  (andThen (stepOp Event.newPage env.newPageOk)
  ((tryBody env).1 ++ [(Event.close, true)], (tryBody env).2)))

/-- Environment of a fully successful run whose login branch is taken. -/
def allOkEnv : Env :=
  ⟨true, true, true, true, true, true, true, true, true, true, true, true, true, true, true⟩

/-- Environment of a fully successful run on an already-authenticated
page (WordSpark heading not visible). -/
def noLoginEnv : Env :=
  ⟨true, true, true, true, false, true, true, true, true, true, true, true, true, true, true⟩

/-- Environment whose context creation fails after a successful browser
launch; every later flag is irrelevant. -/
def ctxFailEnv : Env :=
  ⟨true, false, true, true, false, true, true, true, true, true, true, true, true, true, true⟩

/-- Environment in which the Vocabulary Lists heading never becomes
visible within the deadline (no login page shown, all other steps fine). -/
def vocabFailEnv : Env :=
  ⟨true, true, true, true, false, true, true, true, true, false, true, true, true, true, true⟩

/-- Paths of the screenshot files actually written by a trace: only a
successful screenshot operation writes its file. -/
def writes (tr : Trace) : List String :=
  tr.filterMap (fun x =>
    match x with
    | (Event.screenshot p, true) => some p
    | _ => none)

/-- Effect of a run's writes on the set of files present on disk: a
screenshot replaces the file at its path (overwrite), so a path already
present is not duplicated and a missing one is created. -/
def applyWrites : List String → List String → List String
  | fs, [] => fs
  | fs, p :: ps => applyWrites (if p ∈ fs then fs else fs ++ [p]) ps

/-- Whether an event is a navigation. -/
def isGoto : Event → Bool
  | Event.goto _ => true
  | _ => false

/-- Number of navigations attempted in a trace, whatever their
outcome. -/
def gotoCount (tr : Trace) : Nat :=
  tr.countP (fun x => isGoto x.1)

/-- A rendered UI element as exposed to the accessibility tree: its
semantic role, accessible name, and current visibility. -/
structure UIElement where
  role : String
  name : String
  visible : Bool
deriving DecidableEq

/-- Case-folded character list of a string, for case-insensitive
matching. -/
def lowerChars (s : String) : List Char := s.toList.map Char.toLower

/-- Substring test on character lists: true when the pattern occurs
contiguously inside the list. -/
def hasSub (p : List Char) : List Char → Bool
  | [] => p.isEmpty
  | c :: tl => p.isPrefixOf (c :: tl) || hasSub p tl

/-- Accessible-name matching of a get_by_role name argument given
without exact=True, as the automation library documents it:
case-insensitive substring search. -/
def nameMatches (pattern actual : String) : Bool :=
  hasSub (lowerChars pattern) (lowerChars actual)

/-- Whether an element is matched by a get_by_role locator with the
given role and name arguments. -/
def matchesLocator (role namePat : String) (e : UIElement) : Bool :=
  e.role == role && nameMatches namePat e.name

/-- The element a .first locator resolves to: the first element of the
page, in document order, matched by the role and name arguments. -/
def firstMatch (els : List UIElement) (role namePat : String) : Option UIElement :=
  els.find? (matchesLocator role namePat)

/-- Whether a to_be_visible wait on a get_by_role locator passes on a
page in the given stable state: some matched element is visible. -/
def toBeVisiblePasses (els : List UIElement) (role namePat : String) : Bool :=
  els.any (fun e => matchesLocator role namePat e && e.visible)

/-- Modelled from the spec: the default timeout of the underlying
assertion mechanism, applied when no explicit timeout argument is
passed; the spec leaves the value unspecified but nonzero (the
automation library documents 5000 ms). -/
def defaultAssertionTimeoutMs : Nat := 5000

/-- Demonstration page: a single visible heading whose accessible name
contains "Story:" without starting with it. -/
def storyDemoPage : List UIElement := [⟨"heading", "A Story: B", true⟩]

/-- Demonstration element: a visible Play Story button. -/
def playDemoButton : UIElement := ⟨"button", "Play Story", true⟩

/-- Demonstration page for the .first locator: two visible Play Story
buttons in document order. -/
def playDemoPage : List UIElement :=
  [playDemoButton, ⟨"button", "Play Story", false⟩]

/-- The three acquisitions before the try block all succeed. -/
abbrev ReachesTry (env : Env) : Prop :=
  env.launchOk = true ∧ env.newContextOk = true ∧ env.newPageOk = true

/-- Acquisitions and navigation succeed, so the probe executes. -/
abbrev ReachesProbe (env : Env) : Prop := ReachesTry env ∧ env.gotoOk = true

/-- All four steps of the login branch succeed. -/
abbrev LoginStepsOk (env : Env) : Prop :=
  env.fillEmailOk = true ∧ env.fillPasswordOk = true ∧
  env.signInClickOk = true ∧ env.afterLoginShotOk = true

/-- The run reaches the Vocabulary Lists wait: everything before it,
including the login branch when taken, succeeds. -/
abbrev ReachesVocabWait (env : Env) : Prop :=
  ReachesProbe env ∧ (env.wordSparkVisible = true → LoginStepsOk env)

/-- The run reaches the dashboard screenshot. -/
abbrev ReachesDashShot (env : Env) : Prop :=
  ReachesVocabWait env ∧ env.vocabVisibleOk = true

/-- The run reaches the Play Story visibility assertion. -/
abbrev ReachesPlayExpect (env : Env) : Prop :=
  ReachesDashShot env ∧ env.dashboardShotOk = true

/-- The run reaches the Play Story click. -/
abbrev ReachesPlayClick (env : Env) : Prop :=
  ReachesPlayExpect env ∧ env.playButtonVisibleOk = true

/-- The run reaches the Story: wait. -/
abbrev ReachesStoryWait (env : Env) : Prop :=
  ReachesPlayClick env ∧ env.playClickOk = true

theorem andThen_snd (a b : Trace × Bool) : (andThen a b).2 = (a.2 && b.2) := by
  rcases a with ⟨t, s⟩
  cases s <;> simp [andThen]

theorem andThen_step (e : Event) (ok : Bool) (b : Trace × Bool) :
    andThen (stepOp e ok) b =
      ((e, ok) :: (if ok = true then b.1 else []), ok && b.2) := by
  cases ok <;> simp [andThen, stepOp]

theorem andThen_single (x : Event × Bool) (b : Trace × Bool) :
    andThen ([x], true) b = (x :: b.1, b.2) := by
  simp [andThen]

theorem mem_stepOp {x : Event × Bool} {e : Event} {ok : Bool}
    (h : x ∈ (stepOp e ok).1) : x = (e, ok) := by
  simpa [stepOp] using h

theorem mem_andThen {x : Event × Bool} {a b : Trace × Bool}
    (h : x ∈ (andThen a b).1) : x ∈ a.1 ∨ x ∈ b.1 := by
  unfold andThen at h
  split at h
  · exact List.mem_append.mp h
  · exact Or.inl h

theorem mem_loginBranch {x : Event × Bool} {env : Env}
    (h : x ∈ (loginBranch env).1) :
    x.1 = Event.fill "Email" loginEmail ∨
    x.1 = Event.fill "Password" loginPassword ∨
    x.1 = Event.click "button" "Sign In" false ∨
    x.1 = Event.screenshot afterLoginPath := by
  unfold loginBranch at h
  rcases mem_andThen h with h | h
  · exact Or.inl (congrArg Prod.fst (mem_stepOp h))
  rcases mem_andThen h with h | h
  · exact Or.inr (Or.inl (congrArg Prod.fst (mem_stepOp h)))
  rcases mem_andThen h with h | h
  · exact Or.inr (Or.inr (Or.inl (congrArg Prod.fst (mem_stepOp h))))
  · exact Or.inr (Or.inr (Or.inr (congrArg Prod.fst (mem_stepOp h))))

theorem mem_postLogin {x : Event × Bool} {env : Env}
    (h : x ∈ (postLogin env).1) :
    x.1 = Event.expectVisible "heading" "Vocabulary Lists" false (some vocabTimeoutMs) ∨
    x.1 = Event.screenshot dashboardPath ∨
    x.1 = Event.expectVisible "button" "Play Story" true none ∨
    x.1 = Event.click "button" "Play Story" true ∨
    x.1 = Event.expectVisible "heading" "Story:" false none ∨
    x.1 = Event.screenshot storyPagePath := by
  unfold postLogin afterVocab playBlock storyTail at h
  rcases mem_andThen h with h | h
  · exact Or.inl (congrArg Prod.fst (mem_stepOp h))
  rcases mem_andThen h with h | h
  · exact Or.inr (Or.inl (congrArg Prod.fst (mem_stepOp h)))
  rcases mem_andThen h with h | h
  · exact Or.inr (Or.inr (Or.inl (congrArg Prod.fst (mem_stepOp h))))
  rcases mem_andThen h with h | h
  · exact Or.inr (Or.inr (Or.inr (Or.inl (congrArg Prod.fst (mem_stepOp h)))))
  rcases mem_andThen h with h | h
  · exact Or.inr (Or.inr (Or.inr (Or.inr (Or.inl (congrArg Prod.fst (mem_stepOp h))))))
  · exact Or.inr (Or.inr (Or.inr (Or.inr (Or.inr (congrArg Prod.fst (mem_stepOp h))))))

theorem mem_tryBody {x : Event × Bool} {env : Env}
    (h : x ∈ (tryBody env).1) :
    x.1 = Event.goto targetUrl ∨
    x.1 = Event.isVisibleCheck "heading" "WordSpark" env.wordSparkVisible ∨
    (x ∈ (loginBranch env).1) ∨ (x ∈ (postLogin env).1) := by
  unfold tryBody at h
  rcases mem_andThen h with h | h
  · exact Or.inl (congrArg Prod.fst (mem_stepOp h))
  rcases mem_andThen h with h | h
  · rcases List.mem_singleton.mp h with rfl
    exact Or.inr (Or.inl rfl)
  rcases mem_andThen h with h | h
  · split at h
    · exact Or.inr (Or.inr (Or.inl h))
    · simp at h
  · exact Or.inr (Or.inr (Or.inr h))

theorem run_snd (env : Env) :
    (run env).2 =
      (env.launchOk && (env.newContextOk && (env.newPageOk && (tryBody env).2))) := by
  simp [run, andThen_snd, stepOp]

theorem tryBody_snd (env : Env) :
    (tryBody env).2 =
      (env.gotoOk &&
        ((if env.wordSparkVisible then loginBranch env else ([], true)).2 &&
          (postLogin env).2)) := by
  simp [tryBody, andThen_snd, stepOp]

theorem loginBranch_snd (env : Env) :
    (loginBranch env).2 =
      (env.fillEmailOk && (env.fillPasswordOk &&
        (env.signInClickOk && env.afterLoginShotOk))) := by
  simp [loginBranch, andThen_snd, stepOp]

theorem postLogin_snd (env : Env) :
    (postLogin env).2 =
      (env.vocabVisibleOk && (env.dashboardShotOk && (env.playButtonVisibleOk &&
        (env.playClickOk && (env.storyVisibleOk && env.storyShotOk))))) := by
  simp [postLogin, afterVocab, playBlock, storyTail, andThen_snd, stepOp]

theorem run_fst_of_reachesTry (env : Env) (h : ReachesTry env) :
    (run env).1 =
      (Event.launch, true) :: (Event.newContext, true) :: (Event.newPage, true) ::
        ((tryBody env).1 ++ [(Event.close, true)]) := by
  obtain ⟨h1, h2, h3⟩ := h
  simp [run, andThen_step, h1, h2, h3]

theorem tryBody_fst_of_goto (env : Env) (h4 : env.gotoOk = true) :
    (tryBody env).1 =
      (Event.goto targetUrl, true) ::
      (Event.isVisibleCheck "heading" "WordSpark" env.wordSparkVisible, true) ::
      (andThen (if env.wordSparkVisible then loginBranch env else ([], true))
        (postLogin env)).1 := by
  simp [tryBody, andThen_step, andThen_single, h4]

theorem loginBranch_ok (env : Env) (h : LoginStepsOk env) :
    loginBranch env =
      ([(Event.fill "Email" loginEmail, true),
        (Event.fill "Password" loginPassword, true),
        (Event.click "button" "Sign In" false, true),
        (Event.screenshot afterLoginPath, true)], true) := by
  obtain ⟨h6, h7, h8, h9⟩ := h
  simp [loginBranch, andThen, stepOp, h6, h7, h8, h9]

theorem run_fst_of_reachesVocab (env : Env) (h : ReachesVocabWait env) :
    (run env).1 =
      (Event.launch, true) :: (Event.newContext, true) :: (Event.newPage, true) ::
      (Event.goto targetUrl, true) ::
      (Event.isVisibleCheck "heading" "WordSpark" env.wordSparkVisible, true) ::
      ((if env.wordSparkVisible = true then
          [(Event.fill "Email" loginEmail, true),
           (Event.fill "Password" loginPassword, true),
           (Event.click "button" "Sign In" false, true),
           (Event.screenshot afterLoginPath, true)] else []) ++
        ((postLogin env).1 ++ [(Event.close, true)])) := by
  obtain ⟨⟨ht, h4⟩, hlog⟩ := h
  rw [run_fst_of_reachesTry env ht, tryBody_fst_of_goto env h4]
  cases hv : env.wordSparkVisible
  · simp [andThen]
  · rw [loginBranch_ok env (hlog hv)]
    simp [andThen]

theorem run_snd_of_reachesVocab (env : Env) (h : ReachesVocabWait env) :
    (run env).2 = (postLogin env).2 := by
  obtain ⟨⟨⟨h1, h2, h3⟩, h4⟩, hlog⟩ := h
  rw [run_snd, tryBody_snd, h1, h2, h3, h4]
  cases hv : env.wordSparkVisible
  · simp
  · obtain ⟨h6, h7, h8, h9⟩ := hlog hv
    simp [loginBranch_snd, h6, h7, h8, h9]

theorem andThen_fst (a b : Trace × Bool) :
    (andThen a b).1 = if a.2 = true then a.1 ++ b.1 else a.1 := by
  rcases a with ⟨t, s⟩
  cases s <;> simp [andThen]

theorem mem_step_chain {x : Event × Bool} {e : Event} {ok : Bool} {b : Trace × Bool}
    (h : x ∈ (andThen (stepOp e ok) b).1) :
    x = (e, ok) ∨ (ok = true ∧ x ∈ b.1) := by
  rw [andThen_step] at h
  rcases List.mem_cons.mp h with h | h
  · exact Or.inl h
  · by_cases hk : ok = true
    · rw [if_pos hk] at h
      exact Or.inr ⟨hk, h⟩
    · rw [if_neg hk] at h
      exact absurd h (List.not_mem_nil x)

theorem mem_storyTail {x : Event × Bool} {env : Env}
    (h : x ∈ (storyTail env).1) :
    x = (Event.expectVisible "heading" "Story:" false none, env.storyVisibleOk) ∨
    (env.storyVisibleOk = true ∧
      x = (Event.screenshot storyPagePath, env.storyShotOk)) := by
  unfold storyTail at h
  rcases mem_step_chain h with h | ⟨hs, h⟩
  · exact Or.inl h
  · exact Or.inr ⟨hs, mem_stepOp h⟩

theorem mem_playBlock {x : Event × Bool} {env : Env}
    (h : x ∈ (playBlock env).1) :
    x = (Event.expectVisible "button" "Play Story" true none, env.playButtonVisibleOk) ∨
    (env.playButtonVisibleOk = true ∧
      (x = (Event.click "button" "Play Story" true, env.playClickOk) ∨
        (env.playClickOk = true ∧ x ∈ (storyTail env).1))) := by
  unfold playBlock at h
  rcases mem_step_chain h with h | ⟨hs, h⟩
  · exact Or.inl h
  rcases mem_step_chain h with h | ⟨hc, h⟩
  · exact Or.inr ⟨hs, Or.inl h⟩
  · exact Or.inr ⟨hs, Or.inr ⟨hc, h⟩⟩

theorem mem_afterVocab {x : Event × Bool} {env : Env}
    (h : x ∈ (afterVocab env).1) :
    x = (Event.screenshot dashboardPath, env.dashboardShotOk) ∨
    (env.dashboardShotOk = true ∧ x ∈ (playBlock env).1) := by
  unfold afterVocab at h
  rcases mem_step_chain h with h | ⟨hs, h⟩
  · exact Or.inl h
  · exact Or.inr ⟨hs, h⟩

theorem mem_postLogin_chain {x : Event × Bool} {env : Env}
    (h : x ∈ (postLogin env).1) :
    x = (Event.expectVisible "heading" "Vocabulary Lists" false (some vocabTimeoutMs),
      env.vocabVisibleOk) ∨
    (env.vocabVisibleOk = true ∧ x ∈ (afterVocab env).1) := by
  unfold postLogin at h
  rcases mem_step_chain h with h | ⟨hs, h⟩
  · exact Or.inl h
  · exact Or.inr ⟨hs, h⟩

theorem mem_loginBranch_chain {x : Event × Bool} {env : Env}
    (h : x ∈ (loginBranch env).1) :
    x = (Event.fill "Email" loginEmail, env.fillEmailOk) ∨
    (env.fillEmailOk = true ∧
      (x = (Event.fill "Password" loginPassword, env.fillPasswordOk) ∨
        (env.fillPasswordOk = true ∧
          (x = (Event.click "button" "Sign In" false, env.signInClickOk) ∨
            (env.signInClickOk = true ∧
              x = (Event.screenshot afterLoginPath, env.afterLoginShotOk)))))) := by
  unfold loginBranch at h
  rcases mem_step_chain h with h | ⟨h1, h⟩
  · exact Or.inl h
  rcases mem_step_chain h with h | ⟨h2, h⟩
  · exact Or.inr ⟨h1, Or.inl h⟩
  rcases mem_step_chain h with h | ⟨h3, h⟩
  · exact Or.inr ⟨h1, Or.inr ⟨h2, Or.inl h⟩⟩
  · exact Or.inr ⟨h1, Or.inr ⟨h2, Or.inr ⟨h3, mem_stepOp h⟩⟩⟩

theorem mem_tryBody_chain {x : Event × Bool} {env : Env}
    (h : x ∈ (tryBody env).1) :
    x = (Event.goto targetUrl, env.gotoOk) ∨
    (env.gotoOk = true ∧
      (x = (Event.isVisibleCheck "heading" "WordSpark" env.wordSparkVisible, true) ∨
        (env.wordSparkVisible = true ∧ x ∈ (loginBranch env).1) ∨
        x ∈ (postLogin env).1)) := by
  unfold tryBody at h
  rcases mem_step_chain h with h | ⟨h4, h⟩
  · exact Or.inl h
  rw [andThen_single] at h
  rcases List.mem_cons.mp h with h | h
  · exact Or.inr ⟨h4, Or.inl h⟩
  rcases mem_andThen h with h | h
  · cases hv : env.wordSparkVisible
    · rw [hv] at h
      simp at h
    · rw [hv] at h
      exact Or.inr ⟨h4, Or.inr (Or.inl ⟨rfl, h⟩)⟩
  · exact Or.inr ⟨h4, Or.inr (Or.inr h)⟩

theorem mem_run_chain {x : Event × Bool} {env : Env}
    (h : x ∈ (run env).1) :
    x = (Event.launch, env.launchOk) ∨
    (env.launchOk = true ∧
      (x = (Event.newContext, env.newContextOk) ∨
        (env.newContextOk = true ∧
          (x = (Event.newPage, env.newPageOk) ∨
            (env.newPageOk = true ∧
              (x ∈ (tryBody env).1 ∨ x = (Event.close, true))))))) := by
  unfold run at h
  rcases mem_step_chain h with h | ⟨h1, h⟩
  · exact Or.inl h
  rcases mem_step_chain h with h | ⟨h2, h⟩
  · exact Or.inr ⟨h1, Or.inl h⟩
  rcases mem_step_chain h with h | ⟨h3, h⟩
  · exact Or.inr ⟨h1, Or.inr ⟨h2, Or.inl h⟩⟩
  rcases List.mem_append.mp h with h | h
  · exact Or.inr ⟨h1, Or.inr ⟨h2, Or.inr ⟨h3, Or.inl h⟩⟩⟩
  · exact Or.inr ⟨h1, Or.inr ⟨h2, Or.inr ⟨h3, Or.inr (List.mem_singleton.mp h)⟩⟩⟩

theorem hasSub_iff (p l : List Char) :
    hasSub p l = true ↔ ∃ s t, s ++ p ++ t = l := by
  induction l with
  | nil =>
    constructor
    · intro h
      have hp : p = [] := List.isEmpty_iff.mp (by simpa [hasSub] using h)
      exact ⟨[], [], by simp [hp]⟩
    · rintro ⟨s, t, h⟩
      rcases List.append_eq_nil.mp h with ⟨h1, h2⟩
      rcases List.append_eq_nil.mp h1 with ⟨h3, h4⟩
      simp [hasSub, h4]
  | cons c tl ih =>
    constructor
    · intro h
      have h' : p.isPrefixOf (c :: tl) = true ∨ hasSub p tl = true := by
        simpa [hasSub] using h
      rcases h' with h | h
      · rcases List.isPrefixOf_iff_prefix.mp h with ⟨t, ht⟩
        exact ⟨[], t, by simpa using ht⟩
      · rcases ih.mp h with ⟨s, t, hst⟩
        refine ⟨c :: s, t, ?_⟩
        simpa using hst
    · rintro ⟨s, t, hst⟩
      cases s with
      | nil =>
        have hp : p.isPrefixOf (c :: tl) = true :=
          List.isPrefixOf_iff_prefix.mpr ⟨t, by simpa using hst⟩
        simp [hasSub, hp]
      | cons a s =>
        have h2 : a = c ∧ s ++ p ++ t = tl := by
          constructor
          · have := congrArg (fun l => l.head?) hst
            simpa using this
          · have := congrArg (fun l => l.tail) hst
            simpa using this
        have := ih.mpr ⟨s, t, h2.2⟩
        simp [hasSub, this]

theorem toBeVisiblePasses_iff (els : List UIElement) (role pat : String) :
    toBeVisiblePasses els role pat = true ↔
      ∃ e ∈ els, e.role = role ∧ e.visible = true ∧
        ∃ s t, s ++ lowerChars pat ++ t = lowerChars e.name := by
  simp only [toBeVisiblePasses, matchesLocator, nameMatches, List.any_eq_true,
    Bool.and_eq_true, beq_iff_eq, hasSub_iff]
  constructor
  · rintro ⟨e, he, ⟨⟨h1, h2⟩, h3⟩⟩
    exact ⟨e, he, h1, h3, h2⟩
  · rintro ⟨e, he, h1, h3, h2⟩
    exact ⟨e, he, ⟨⟨h1, h2⟩, h3⟩⟩

theorem firstMatch_eq_some_iff (els : List UIElement) (role pat : String)
    (e : UIElement) :
    firstMatch els role pat = some e ↔
      matchesLocator role pat e = true ∧
        ∃ pre post, els = pre ++ e :: post ∧
          ∀ x ∈ pre, matchesLocator role pat x = false := by
  unfold firstMatch
  simp only [List.find?_eq_some, Bool.not_eq_true']

theorem firstMatch_isSome (els : List UIElement) (role pat : String)
    (h : ∃ x ∈ els, matchesLocator role pat x = true) :
    (firstMatch els role pat).isSome = true := by
  unfold firstMatch
  exact List.find?_isSome.mpr h

theorem mem_applyWrites (fs ps : List String) (p : String) :
    p ∈ applyWrites fs ps ↔ p ∈ fs ∨ p ∈ ps := by
  induction ps generalizing fs with
  | nil => simp [applyWrites]
  | cons q qs ih =>
    by_cases hq : q ∈ fs
    · rw [applyWrites, if_pos hq, ih]
      simp only [List.mem_cons]
      constructor
      · rintro (h | h)
        · exact Or.inl h
        · exact Or.inr (Or.inr h)
      · rintro (h | rfl | h)
        · exact Or.inl h
        · exact Or.inl hq
        · exact Or.inr h
    · rw [applyWrites, if_neg hq, ih]
      simp only [List.mem_append, List.mem_singleton, List.mem_cons]
      tauto

theorem applyWrites_of_subset (fs ps : List String) (h : ∀ p ∈ ps, p ∈ fs) :
    applyWrites fs ps = fs := by
  induction ps generalizing fs with
  | nil => rfl
  | cons q qs ih =>
    have hq : q ∈ fs := h q (List.mem_cons_self q qs)
    rw [applyWrites, if_pos hq]
    exact ih fs (fun p hp => h p (List.mem_cons_of_mem q hp))

theorem applyWrites_idem (fs ps : List String) :
    applyWrites (applyWrites fs ps) ps = applyWrites fs ps :=
  applyWrites_of_subset _ _ (fun p hp => (mem_applyWrites fs ps p).mpr (Or.inr hp))

theorem length_applyWrites (fs ps : List String) :
    (applyWrites fs ps).length ≤ fs.length + ps.length := by
  induction ps generalizing fs with
  | nil => simp [applyWrites]
  | cons q qs ih =>
    by_cases hq : q ∈ fs
    · rw [applyWrites, if_pos hq]
      calc (applyWrites fs qs).length ≤ fs.length + qs.length := ih fs
        _ ≤ fs.length + (q :: qs).length := by simp
    · rw [applyWrites, if_neg hq]
      calc (applyWrites (fs ++ [q]) qs).length ≤ (fs ++ [q]).length + qs.length := ih _
        _ = fs.length + (q :: qs).length := by simp; omega

theorem run_success_flags (env : Env) (h : (run env).2 = true) :
    ReachesVocabWait env ∧ env.vocabVisibleOk = true ∧ env.dashboardShotOk = true ∧
      env.playButtonVisibleOk = true ∧ env.playClickOk = true ∧
      env.storyVisibleOk = true ∧ env.storyShotOk = true := by
  rw [run_snd, tryBody_snd, postLogin_snd] at h
  simp only [Bool.and_eq_true] at h
  obtain ⟨h1, h2, h3, h4, hbr, h10, h11, h12, h13, h14, h15⟩ := h
  refine ⟨⟨⟨⟨h1, h2, h3⟩, h4⟩, ?_⟩, h10, h11, h12, h13, h14, h15⟩
  intro hv
  rw [hv] at hbr
  simp only [if_true] at hbr
  rw [loginBranch_snd] at hbr
  simp only [Bool.and_eq_true] at hbr
  exact ⟨hbr.1, hbr.2.1, hbr.2.2.1, hbr.2.2.2⟩

theorem postLogin_fst_ok (env : Env) (h10 : env.vocabVisibleOk = true)
    (h11 : env.dashboardShotOk = true) (h12 : env.playButtonVisibleOk = true)
    (h13 : env.playClickOk = true) :
    (postLogin env).1 =
      (Event.expectVisible "heading" "Vocabulary Lists" false (some vocabTimeoutMs), true) ::
      (Event.screenshot dashboardPath, true) ::
      (Event.expectVisible "button" "Play Story" true none, true) ::
      (Event.click "button" "Play Story" true, true) ::
      (Event.expectVisible "heading" "Story:" false none, env.storyVisibleOk) ::
      (if env.storyVisibleOk = true
        then [(Event.screenshot storyPagePath, env.storyShotOk)] else []) := by
  cases hs : env.storyVisibleOk <;>
    simp [postLogin, afterVocab, playBlock, storyTail, andThen, stepOp,
      h10, h11, h12, h13, hs]

theorem postLogin_fst (env : Env) :
    (postLogin env).1 =
      (Event.expectVisible "heading" "Vocabulary Lists" false (some vocabTimeoutMs),
        env.vocabVisibleOk) ::
      (if env.vocabVisibleOk = true then (afterVocab env).1 else []) := by
  simp only [postLogin, andThen_step]

/-- Claim C1 counterexample: the browser-close cleanup does not execute
on every exit path.  In a run whose browser launch succeeds but whose
context creation fails, the failure escapes before the try block is
entered, so the finally clause never runs: the launched browser is
never closed and leaks. -/
theorem c1_counterexample :
    (Event.launch, true) ∈ (run ctxFailEnv).1 ∧
    ctxFailEnv.newContextOk = false ∧
    (∀ b, (Event.close, b) ∉ (run ctxFailEnv).1) ∧
    (run ctxFailEnv).2 = false := by decide

/-- Claim C1 (amended): once the try block is entered, that is when
browser launch, context creation and page creation have all succeeded,
the browser close executes exactly once per run, on every exit path,
whatever later step fails; a failure of launch, context creation or
page creation itself escapes before the try block, so the close does
not run on those paths and a launched browser can leak. -/
theorem c1_close_exactly_once (env : Env) (h : ReachesTry env) :
    List.count (Event.close, true) (run env).1 = 1 := by
  rw [run_fst_of_reachesTry env h]
  have hnc : (Event.close, true) ∉ (tryBody env).1 := by
    intro hm
    rcases mem_tryBody hm with h' | h' | h' | h'
    · simp at h'
    · simp at h'
    · rcases mem_loginBranch h' with h'' | h'' | h'' | h'' <;> simp at h''
    · rcases mem_postLogin h' with h'' | h'' | h'' | h'' | h'' | h'' <;> simp at h''
  simp [List.count_cons, List.count_append, List.count_eq_zero.mpr hnc]

/-- Witness for claim C1 at a concrete failing environment: the
Vocabulary Lists wait times out, yet the close still runs exactly
once. -/
theorem c1_close_exactly_once_witness :
    List.count (Event.close, true) (run vocabFailEnv).1 = 1 :=
  c1_close_exactly_once vocabFailEnv (by decide)

/-- Claim C2: after the (possibly skipped) login branch the run
performs the Vocabulary Lists heading wait with an explicit hard
deadline of exactly 10000 ms as the very next operation; if the
heading is not visible within the deadline the wait fails and the
failure propagates: the run result is failure and the dashboard
screenshot is never attempted, so the timeout is reported, not
silently ignored. -/
theorem c2_vocab_wait (env : Env) (b : Bool) (h : ReachesVocabWait env) :
    (∃ t, (run env).1 =
      ([(Event.launch, true), (Event.newContext, true), (Event.newPage, true),
        (Event.goto targetUrl, true),
        (Event.isVisibleCheck "heading" "WordSpark" env.wordSparkVisible, true)] ++
       (if env.wordSparkVisible = true then
          [(Event.fill "Email" loginEmail, true),
           (Event.fill "Password" loginPassword, true),
           (Event.click "button" "Sign In" false, true),
           (Event.screenshot afterLoginPath, true)] else []) ++
       ((Event.expectVisible "heading" "Vocabulary Lists" false (some 10000),
          env.vocabVisibleOk) :: t))) ∧
    (env.vocabVisibleOk = false →
      (run env).2 = false ∧
      (Event.screenshot dashboardPath, b) ∉ (run env).1) := by
  constructor
  · refine ⟨(if env.vocabVisibleOk = true then (afterVocab env).1 else []) ++
      [(Event.close, true)], ?_⟩
    rw [run_fst_of_reachesVocab env h, postLogin_fst]
    simp [vocabTimeoutMs]
  · intro hvf
    constructor
    · rw [run_snd_of_reachesVocab env h, postLogin_snd, hvf]
      simp
    · intro hm
      rcases mem_run_chain hm with h' | ⟨_, h'⟩
      · simp at h'
      rcases h' with h' | ⟨_, h'⟩
      · simp at h'
      rcases h' with h' | ⟨_, h'⟩
      · simp at h'
      rcases h' with h' | h'
      swap
      · simp at h'
      rcases mem_tryBody_chain h' with h' | ⟨_, h'⟩
      · simp at h'
      rcases h' with h' | h' | h'
      · simp at h'
      · rcases mem_loginBranch h'.2 with h'' | h'' | h'' | h'' <;>
          simp [dashboardPath, afterLoginPath] at h''
      rcases mem_postLogin_chain h' with h' | ⟨hcv, _⟩
      · simp at h'
      · rw [hvf] at hcv
        exact Bool.false_ne_true hcv

/-- Witness for claim C2 at a concrete environment whose Vocabulary
Lists heading never becomes visible: the run fails and no dashboard
screenshot is attempted. -/
theorem c2_vocab_wait_witness :
    (run vocabFailEnv).2 = false ∧
    (Event.screenshot dashboardPath, true) ∉ (run vocabFailEnv).1 :=
  (c2_vocab_wait vocabFailEnv true (by decide)).2 rfl

theorem loginBranch_fst (env : Env) :
    (loginBranch env).1 =
      (Event.fill "Email" loginEmail, env.fillEmailOk) ::
      (if env.fillEmailOk = true then
        (andThen (stepOp (Event.fill "Password" loginPassword) env.fillPasswordOk)
          (andThen (stepOp (Event.click "button" "Sign In" false) env.signInClickOk)
            (stepOp (Event.screenshot afterLoginPath) env.afterLoginShotOk))).1
       else []) := by
  simp only [loginBranch, andThen_step]

theorem mem_run_cases {x : Event × Bool} {env : Env} (h : x ∈ (run env).1) :
    x.1 = Event.launch ∨ x.1 = Event.newContext ∨ x.1 = Event.newPage ∨
    x.1 = Event.close ∨ x ∈ (tryBody env).1 := by
  rcases mem_run_chain h with h | ⟨_, h⟩
  · exact Or.inl (congrArg Prod.fst h)
  rcases h with h | ⟨_, h⟩
  · exact Or.inr (Or.inl (congrArg Prod.fst h))
  rcases h with h | ⟨_, h⟩
  · exact Or.inr (Or.inr (Or.inl (congrArg Prod.fst h)))
  rcases h with h | h
  · exact Or.inr (Or.inr (Or.inr (Or.inr h)))
  · exact Or.inr (Or.inr (Or.inr (Or.inl (congrArg Prod.fst h))))

/-- Claim C3: whenever the WordSpark heading is visible at the moment
of the probe (and the run got that far), the run fills the Email field
with exactly test@example.com, fills the Password field with exactly
password, clicks the Sign In button exactly once, in that order, and
immediately afterwards captures the login-confirmation screenshot; the
Sign In click and that screenshot occur nowhere else in the run, and
no fill with any other label or text ever occurs. -/
theorem c3_login_fill_and_submit (env : Env) (label text : String) (b : Bool)
    (h : ReachesProbe env) (hv : env.wordSparkVisible = true)
    (hl : LoginStepsOk env) :
    (∃ rest,
      (run env).1 =
        [(Event.launch, true), (Event.newContext, true), (Event.newPage, true),
         (Event.goto targetUrl, true),
         (Event.isVisibleCheck "heading" "WordSpark" true, true),
         (Event.fill "Email" "test@example.com", true),
         (Event.fill "Password" "password", true),
         (Event.click "button" "Sign In" false, true),
         (Event.screenshot afterLoginPath, true)] ++ rest ∧
      (Event.click "button" "Sign In" false, b) ∉ rest ∧
      (Event.screenshot afterLoginPath, b) ∉ rest) ∧
    ((Event.fill label text, b) ∈ (run env).1 →
      (label = "Email" ∧ text = "test@example.com") ∨
      (label = "Password" ∧ text = "password")) := by
  have hvw : ReachesVocabWait env := ⟨h, fun _ => hl⟩
  constructor
  · refine ⟨(postLogin env).1 ++ [(Event.close, true)], ?_, ?_, ?_⟩
    · rw [run_fst_of_reachesVocab env hvw, hv]
      simp [loginEmail, loginPassword]
    · intro hm
      rcases List.mem_append.mp hm with hm | hm
      · rcases mem_postLogin hm with h'' | h'' | h'' | h'' | h'' | h'' <;> simp at h''
      · simp at hm
    · intro hm
      rcases List.mem_append.mp hm with hm | hm
      · rcases mem_postLogin hm with h'' | h'' | h'' | h'' | h'' | h'' <;>
          simp [afterLoginPath, dashboardPath, storyPagePath] at h''
      · simp at hm
  · intro hm
    rcases mem_run_cases hm with h' | h' | h' | h' | h'
    · simp at h'
    · simp at h'
    · simp at h'
    · simp at h'
    rcases mem_tryBody_chain h' with h' | ⟨_, h'⟩
    · simp at h'
    rcases h' with h' | h' | h'
    · simp at h'
    · rcases mem_loginBranch h'.2 with h'' | h'' | h'' | h''
      · have := h''
        simp only [Event.fill.injEq] at this
        exact Or.inl ⟨this.1, by simpa [loginEmail] using this.2⟩
      · have := h''
        simp only [Event.fill.injEq] at this
        exact Or.inr ⟨this.1, by simpa [loginPassword] using this.2⟩
      · simp at h''
      · simp at h''
    · rcases mem_postLogin h' with h'' | h'' | h'' | h'' | h'' | h'' <;> simp at h''

/-- Witness for claim C3 at the all-success environment with the login
branch taken. -/
theorem c3_login_fill_and_submit_witness :
    (∃ rest,
      (run allOkEnv).1 =
        [(Event.launch, true), (Event.newContext, true), (Event.newPage, true),
         (Event.goto targetUrl, true),
         (Event.isVisibleCheck "heading" "WordSpark" true, true),
         (Event.fill "Email" "test@example.com", true),
         (Event.fill "Password" "password", true),
         (Event.click "button" "Sign In" false, true),
         (Event.screenshot afterLoginPath, true)] ++ rest ∧
      (Event.click "button" "Sign In" false, true) ∉ rest ∧
      (Event.screenshot afterLoginPath, true) ∉ rest) ∧
    ((Event.fill "Email" "test@example.com", true) ∈ (run allOkEnv).1 →
      ("Email" = "Email" ∧ "test@example.com" = "test@example.com") ∨
      ("Email" = "Password" ∧ "test@example.com" = "password")) :=
  c3_login_fill_and_submit allOkEnv "Email" "test@example.com" true
    (by decide) (by decide) (by decide)

/-- Claim C4: whenever the WordSpark heading is not visible at the
moment of the probe, the entire login branch is skipped: no field is
ever filled, the Sign In button is never clicked, the
login-confirmation screenshot is never attempted, and the run proceeds
directly to the Vocabulary Lists wait. -/
theorem c4_login_skipped (env : Env) (label text : String) (b c d e : Bool)
    (h : ReachesProbe env) (hv : env.wordSparkVisible = false) :
    ((run env).1 =
      [(Event.launch, true), (Event.newContext, true), (Event.newPage, true),
       (Event.goto targetUrl, true),
       (Event.isVisibleCheck "heading" "WordSpark" false, true)] ++
      ((postLogin env).1 ++ [(Event.close, true)])) ∧
    (Event.fill label text, b) ∉ (run env).1 ∧
    (Event.click "button" "Sign In" c, d) ∉ (run env).1 ∧
    (Event.screenshot afterLoginPath, e) ∉ (run env).1 ∧
    (∃ t, (postLogin env).1 =
      (Event.expectVisible "heading" "Vocabulary Lists" false (some vocabTimeoutMs),
        env.vocabVisibleOk) :: t) := by
  have hvw : ReachesVocabWait env := ⟨h, fun hvv => absurd hvv (by simp [hv])⟩
  refine ⟨?_, ?_, ?_, ?_, ⟨_, postLogin_fst env⟩⟩
  · rw [run_fst_of_reachesVocab env hvw, hv]
    simp
  · intro hm
    rcases mem_run_cases hm with h' | h' | h' | h' | h'
    · simp at h'
    · simp at h'
    · simp at h'
    · simp at h'
    rcases mem_tryBody_chain h' with h' | ⟨_, h'⟩
    · simp at h'
    rcases h' with h' | h' | h'
    · simp at h'
    · rw [hv] at h'
      exact Bool.false_ne_true h'.1
    · rcases mem_postLogin h' with h'' | h'' | h'' | h'' | h'' | h'' <;> simp at h''
  · intro hm
    rcases mem_run_cases hm with h' | h' | h' | h' | h'
    · simp at h'
    · simp at h'
    · simp at h'
    · simp at h'
    rcases mem_tryBody_chain h' with h' | ⟨_, h'⟩
    · simp at h'
    rcases h' with h' | h' | h'
    · simp at h'
    · rw [hv] at h'
      exact Bool.false_ne_true h'.1
    · rcases mem_postLogin h' with h'' | h'' | h'' | h'' | h'' | h'' <;> simp at h''
  · intro hm
    rcases mem_run_cases hm with h' | h' | h' | h' | h'
    · simp at h'
    · simp at h'
    · simp at h'
    · simp at h'
    rcases mem_tryBody_chain h' with h' | ⟨_, h'⟩
    · simp at h'
    rcases h' with h' | h' | h'
    · simp at h'
    · rw [hv] at h'
      exact Bool.false_ne_true h'.1
    · rcases mem_postLogin h' with h'' | h'' | h'' | h'' | h'' | h'' <;>
        simp [afterLoginPath, dashboardPath, storyPagePath] at h''

/-- Witness for claim C4 at the all-success environment on an
already-authenticated page. -/
theorem c4_login_skipped_witness :
    (Event.fill "Email" "test@example.com", true) ∉ (run noLoginEnv).1 ∧
    (Event.click "button" "Sign In" false, true) ∉ (run noLoginEnv).1 ∧
    (Event.screenshot afterLoginPath, true) ∉ (run noLoginEnv).1 :=
  ⟨(c4_login_skipped noLoginEnv "Email" "test@example.com" true false true true
      (by decide) (by decide)).2.1,
   (c4_login_skipped noLoginEnv "Email" "test@example.com" true false true true
      (by decide) (by decide)).2.2.1,
   (c4_login_skipped noLoginEnv "Email" "test@example.com" true false true true
      (by decide) (by decide)).2.2.2.1⟩

/-- Claim C7: the WordSpark probe is modelled as a non-waiting check:
it is an infallible, timeout-free operation that records the
instantaneous visibility of the heading and always succeeds, even on a
page where the heading never appears; the run branches on that
instantaneous result, proceeding directly to the Vocabulary Lists wait
when the heading is not visible and directly into the login branch
when it is. -/
theorem c7_probe_instantaneous (env : Env) (h : ReachesProbe env) :
    ((Event.isVisibleCheck "heading" "WordSpark" env.wordSparkVisible, true)
        ∈ (run env).1) ∧
    (env.wordSparkVisible = false →
      ∃ t, (run env).1 =
        [(Event.launch, true), (Event.newContext, true), (Event.newPage, true),
         (Event.goto targetUrl, true),
         (Event.isVisibleCheck "heading" "WordSpark" false, true),
         (Event.expectVisible "heading" "Vocabulary Lists" false (some vocabTimeoutMs),
           env.vocabVisibleOk)] ++ t) ∧
    (env.wordSparkVisible = true →
      (Event.fill "Email" loginEmail, env.fillEmailOk) ∈ (run env).1) := by
  obtain ⟨ht, h4⟩ := h
  have htr := run_fst_of_reachesTry env ht
  have htb := tryBody_fst_of_goto env h4
  refine ⟨?_, ?_, ?_⟩
  · rw [htr, htb]
    simp
  · intro hv
    refine ⟨(if env.vocabVisibleOk = true then (afterVocab env).1 else []) ++
      [(Event.close, true)], ?_⟩
    rw [htr, htb, hv]
    simp [andThen, postLogin_fst]
  · intro hv
    rw [htr, htb, hv]
    by_cases hlb : (loginBranch env).2 = true <;>
      simp [andThen_fst, hlb, loginBranch_fst]

/-- Witness for claim C7 at the all-success environment on an
already-authenticated page: the probe records the instantaneous result
false and the run proceeds straight to the Vocabulary Lists wait. -/
theorem c7_probe_instantaneous_witness :
    ((Event.isVisibleCheck "heading" "WordSpark" false, true) ∈ (run noLoginEnv).1) ∧
    (∃ t, (run noLoginEnv).1 =
      [(Event.launch, true), (Event.newContext, true), (Event.newPage, true),
       (Event.goto targetUrl, true),
       (Event.isVisibleCheck "heading" "WordSpark" false, true),
       (Event.expectVisible "heading" "Vocabulary Lists" false (some vocabTimeoutMs),
         true)] ++ t) :=
  ⟨(c7_probe_instantaneous noLoginEnv (by decide)).1,
   (c7_probe_instantaneous noLoginEnv (by decide)).2.1 rfl⟩

theorem postLogin_fst_to_click (env : Env) (h10 : env.vocabVisibleOk = true)
    (h11 : env.dashboardShotOk = true) (h12 : env.playButtonVisibleOk = true) :
    (postLogin env).1 =
      (Event.expectVisible "heading" "Vocabulary Lists" false (some vocabTimeoutMs), true) ::
      (Event.screenshot dashboardPath, true) ::
      (Event.expectVisible "button" "Play Story" true none, true) ::
      (Event.click "button" "Play Story" true, env.playClickOk) ::
      (if env.playClickOk = true then (storyTail env).1 else []) := by
  cases hc : env.playClickOk <;>
    simp [postLogin, afterVocab, playBlock, andThen_step, h10, h11, h12, hc]

/-- Claim C5 counterexample: the Story: wait does not succeed exactly
for headings whose accessible name starts with the prefix Story:.
On a page whose only element is a visible heading named "A Story: B"
the wait passes although no heading name on the page starts with
"Story:", because the name argument of get_by_role given without
exact=True is matched as a case-insensitive substring, not as a
prefix. -/
theorem c5_counterexample :
    toBeVisiblePasses storyDemoPage "heading" "Story:" = true ∧
    storyDemoPage.all
      (fun e => !(("Story:".toList).isPrefixOf e.name.toList)) = true := by
  decide

/-- Claim C5 (amended): after the Play Story click the run immediately
waits on a heading locator whose name argument is "Story:", and that
wait passes exactly when some visible heading on the page has an
accessible name containing "Story:" as a case-insensitive substring;
names starting with "Story:" are a special case, but containment
anywhere in the name, in any letter case, also passes. -/
theorem c5_story_wait_matches (env : Env) (els : List UIElement)
    (h : ReachesStoryWait env) :
    (∃ pre t, (run env).1 = pre ++
      ((Event.click "button" "Play Story" true, true) ::
       (Event.expectVisible "heading" "Story:" false none, env.storyVisibleOk) :: t)) ∧
    (toBeVisiblePasses els "heading" "Story:" = true ↔
      ∃ e ∈ els, e.role = "heading" ∧ e.visible = true ∧
        ∃ s t, s ++ lowerChars "Story:" ++ t = lowerChars e.name) := by
  obtain ⟨⟨⟨⟨hvw, h10⟩, h11⟩, h12⟩, h13⟩ := h
  constructor
  · refine ⟨[(Event.launch, true), (Event.newContext, true), (Event.newPage, true),
      (Event.goto targetUrl, true),
      (Event.isVisibleCheck "heading" "WordSpark" env.wordSparkVisible, true)] ++
      (if env.wordSparkVisible = true then
        [(Event.fill "Email" loginEmail, true),
         (Event.fill "Password" loginPassword, true),
         (Event.click "button" "Sign In" false, true),
         (Event.screenshot afterLoginPath, true)] else []) ++
      [(Event.expectVisible "heading" "Vocabulary Lists" false (some vocabTimeoutMs), true),
       (Event.screenshot dashboardPath, true),
       (Event.expectVisible "button" "Play Story" true none, true)],
      (if env.storyVisibleOk = true
        then [(Event.screenshot storyPagePath, env.storyShotOk)] else []) ++
      [(Event.close, true)], ?_⟩
    rw [run_fst_of_reachesVocab env hvw,
      postLogin_fst_ok env h10 h11 h12 h13]
    simp
  · exact toBeVisiblePasses_iff els "heading" "Story:"

/-- Witness for claim C5 at the all-success environment and the
demonstration page. -/
theorem c5_story_wait_matches_witness :
    (∃ pre t, (run allOkEnv).1 = pre ++
      ((Event.click "button" "Play Story" true, true) ::
       (Event.expectVisible "heading" "Story:" false none, true) :: t)) ∧
    (toBeVisiblePasses storyDemoPage "heading" "Story:" = true ↔
      ∃ e ∈ storyDemoPage, e.role = "heading" ∧ e.visible = true ∧
        ∃ s t, s ++ lowerChars "Story:" ++ t = lowerChars e.name) :=
  c5_story_wait_matches allOkEnv storyDemoPage (by decide)

/-- Claim C6: after the dashboard screenshot the run asserts, with the
library default (nonzero) timeout and no explicit timeout argument,
that the .first Play Story button locator is visible, and then clicks
it exactly once; the .first locator resolves to the first element in
document order matched by role button and name argument "Play Story",
and resolves to some element whenever the page exposes at least one
matching control. -/
theorem c6_play_story_first (env : Env) (els : List UIElement) (e : UIElement)
    (h : ReachesPlayClick env) :
    (∃ pre t, (run env).1 = pre ++
      ((Event.screenshot dashboardPath, true) ::
       (Event.expectVisible "button" "Play Story" true none, true) ::
       (Event.click "button" "Play Story" true, env.playClickOk) :: t)) ∧
    (env.playClickOk = true →
      List.count (Event.click "button" "Play Story" true, true) (run env).1 = 1) ∧
    (firstMatch els "button" "Play Story" = some e ↔
      matchesLocator "button" "Play Story" e = true ∧
        ∃ pre post, els = pre ++ e :: post ∧
          ∀ x ∈ pre, matchesLocator "button" "Play Story" x = false) ∧
    ((∃ x ∈ els, matchesLocator "button" "Play Story" x = true) →
      (firstMatch els "button" "Play Story").isSome = true) ∧
    0 < defaultAssertionTimeoutMs := by
  obtain ⟨⟨⟨hvw, h10⟩, h11⟩, h12⟩ := h
  refine ⟨?_, ?_, firstMatch_eq_some_iff els "button" "Play Story" e,
    firstMatch_isSome els "button" "Play Story", by decide⟩
  · refine ⟨[(Event.launch, true), (Event.newContext, true), (Event.newPage, true),
      (Event.goto targetUrl, true),
      (Event.isVisibleCheck "heading" "WordSpark" env.wordSparkVisible, true)] ++
      (if env.wordSparkVisible = true then
        [(Event.fill "Email" loginEmail, true),
         (Event.fill "Password" loginPassword, true),
         (Event.click "button" "Sign In" false, true),
         (Event.screenshot afterLoginPath, true)] else []) ++
      [(Event.expectVisible "heading" "Vocabulary Lists" false (some vocabTimeoutMs), true)],
      (if env.playClickOk = true then (storyTail env).1 else []) ++
      [(Event.close, true)], ?_⟩
    rw [run_fst_of_reachesVocab env hvw,
      postLogin_fst_to_click env h10 h11 h12]
    simp
  · intro hc
    have hnt : (Event.click "button" "Play Story" true, true) ∉ (storyTail env).1 := by
      intro hm
      rcases mem_storyTail hm with hm | ⟨_, hm⟩ <;> simp at hm
    rw [run_fst_of_reachesVocab env hvw,
      postLogin_fst_to_click env h10 h11 h12, hc]
    cases hv : env.wordSparkVisible <;>
      simp [List.count_append, List.count_cons, List.count_eq_zero.mpr hnt]

/-- Witness for claim C6 at the all-success environment and the
demonstration page with two Play Story buttons. -/
theorem c6_play_story_first_witness :
    List.count (Event.click "button" "Play Story" true, true) (run allOkEnv).1 = 1 ∧
    (firstMatch playDemoPage "button" "Play Story").isSome = true :=
  ⟨(c6_play_story_first allOkEnv playDemoPage playDemoButton (by decide)).2.1 rfl,
   (c6_play_story_first allOkEnv playDemoPage playDemoButton (by decide)).2.2.2.1
     ⟨playDemoButton, by decide, by decide⟩⟩

theorem mem_writes (p : String) (tr : Trace) :
    p ∈ writes tr ↔ (Event.screenshot p, true) ∈ tr := by
  unfold writes
  rw [List.mem_filterMap]
  constructor
  · rintro ⟨⟨e, b⟩, hx, hmatch⟩
    cases e <;> cases b <;> simp_all
  · intro hx
    exact ⟨(Event.screenshot p, true), hx, rfl⟩

/-- Claim C8: a fully successful run whose login branch is taken
writes exactly three screenshot files, at the fixed
login-confirmation, dashboard and story-page paths, in that order, and
nothing else; re-applying the same writes to the resulting file set
changes nothing (overwrite, not versioning), and the file count grows
by at most three. -/
theorem c8_screenshots (env : Env) (fs : List String)
    (h2 : (run env).2 = true) (hv : env.wordSparkVisible = true) :
    writes (run env).1 = [afterLoginPath, dashboardPath, storyPagePath] ∧
    applyWrites (applyWrites fs (writes (run env).1)) (writes (run env).1) =
      applyWrites fs (writes (run env).1) ∧
    (applyWrites fs (writes (run env).1)).length ≤ fs.length + 3 := by
  obtain ⟨hvw, h10, h11, h12, h13, h14, h15⟩ := run_success_flags env h2
  have htr : writes (run env).1 = [afterLoginPath, dashboardPath, storyPagePath] := by
    rw [run_fst_of_reachesVocab env hvw, postLogin_fst_ok env h10 h11 h12 h13,
      hv, h14, h15]
    simp [writes]
  refine ⟨htr, applyWrites_idem _ _, ?_⟩
  calc (applyWrites fs (writes (run env).1)).length
      ≤ fs.length + (writes (run env).1).length := length_applyWrites _ _
    _ = fs.length + 3 := by rw [htr]; rfl

/-- Witness for claim C8 at the all-success environment, starting from
an empty disk. -/
theorem c8_screenshots_witness :
    writes (run allOkEnv).1 = [afterLoginPath, dashboardPath, storyPagePath] ∧
    applyWrites (applyWrites ([] : List String) (writes (run allOkEnv).1))
        (writes (run allOkEnv).1) =
      applyWrites ([] : List String) (writes (run allOkEnv).1) ∧
    (applyWrites ([] : List String) (writes (run allOkEnv).1)).length ≤
      ([] : List String).length + 3 :=
  c8_screenshots allOkEnv [] (by decide) (by decide)

/-- Claim C9: no screenshot file is written unless every assertion and
interaction before it succeeded: a dashboard write implies the
Vocabulary Lists wait succeeded, a story-page write implies the Story:
wait and everything before it succeeded, and once one of those waits
fails the corresponding later files are not written at all in that
run. -/
theorem c9_no_unearned_writes (env : Env) :
    ((Event.screenshot dashboardPath, true) ∈ (run env).1 →
      env.vocabVisibleOk = true ∧ env.dashboardShotOk = true) ∧
    ((Event.screenshot storyPagePath, true) ∈ (run env).1 →
      env.vocabVisibleOk = true ∧ env.dashboardShotOk = true ∧
      env.playButtonVisibleOk = true ∧ env.playClickOk = true ∧
      env.storyVisibleOk = true ∧ env.storyShotOk = true) ∧
    (env.vocabVisibleOk = false →
      dashboardPath ∉ writes (run env).1 ∧ storyPagePath ∉ writes (run env).1) ∧
    (env.storyVisibleOk = false → storyPagePath ∉ writes (run env).1) := by
  have hdash : (Event.screenshot dashboardPath, true) ∈ (run env).1 →
      env.vocabVisibleOk = true ∧ env.dashboardShotOk = true := by
    intro hm
    rcases mem_run_cases hm with h' | h' | h' | h' | h'
    · simp at h'
    · simp at h'
    · simp at h'
    · simp at h'
    rcases mem_tryBody_chain h' with h' | ⟨_, h'⟩
    · simp at h'
    rcases h' with h' | h' | h'
    · simp at h'
    · rcases mem_loginBranch h'.2 with h'' | h'' | h'' | h'' <;>
        simp [dashboardPath, afterLoginPath] at h''
    rcases mem_postLogin_chain h' with h' | ⟨hv10, h'⟩
    · simp at h'
    rcases mem_afterVocab h' with h' | ⟨hd, h'⟩
    · have hb := congrArg Prod.snd h'
      exact ⟨hv10, hb.symm⟩
    rcases mem_playBlock h' with h'' | ⟨_, h''⟩
    · simp at h''
    rcases h'' with h'' | ⟨_, h''⟩
    · simp at h''
    rcases mem_storyTail h'' with h'' | ⟨_, h''⟩
    · simp at h''
    · simp [dashboardPath, storyPagePath] at h''
  have hstory : (Event.screenshot storyPagePath, true) ∈ (run env).1 →
      env.vocabVisibleOk = true ∧ env.dashboardShotOk = true ∧
      env.playButtonVisibleOk = true ∧ env.playClickOk = true ∧
      env.storyVisibleOk = true ∧ env.storyShotOk = true := by
    intro hm
    rcases mem_run_cases hm with h' | h' | h' | h' | h'
    · simp at h'
    · simp at h'
    · simp at h'
    · simp at h'
    rcases mem_tryBody_chain h' with h' | ⟨_, h'⟩
    · simp at h'
    rcases h' with h' | h' | h'
    · simp at h'
    · rcases mem_loginBranch h'.2 with h'' | h'' | h'' | h'' <;>
        simp [storyPagePath, afterLoginPath] at h''
    rcases mem_postLogin_chain h' with h' | ⟨hv10, h'⟩
    · simp at h'
    rcases mem_afterVocab h' with h' | ⟨hd, h'⟩
    · simp [dashboardPath, storyPagePath] at h'
    rcases mem_playBlock h' with h'' | ⟨hp12, h''⟩
    · simp at h''
    rcases h'' with h'' | ⟨hp13, h''⟩
    · simp at h''
    rcases mem_storyTail h'' with h'' | ⟨hs14, h''⟩
    · simp at h''
    · have hb := congrArg Prod.snd h''
      exact ⟨hv10, hd, hp12, hp13, hs14, hb.symm⟩
  refine ⟨hdash, hstory, ?_, ?_⟩
  · intro hvf
    constructor
    · intro hw
      have h := hdash ((mem_writes _ _).mp hw)
      rw [hvf] at h
      exact Bool.false_ne_true h.1
    · intro hw
      have h := hstory ((mem_writes _ _).mp hw)
      rw [hvf] at h
      exact Bool.false_ne_true h.1
  · intro hsf hw
    have h := hstory ((mem_writes _ _).mp hw)
    rw [hsf] at h
    exact Bool.false_ne_true h.2.2.2.2.1

/-- Witness for claim C9: with a failing Vocabulary Lists wait neither
the dashboard nor the story-page file is written, and in the
all-success run the dashboard write certifies its preconditions. -/
theorem c9_no_unearned_writes_witness :
    (dashboardPath ∉ writes (run vocabFailEnv).1 ∧
      storyPagePath ∉ writes (run vocabFailEnv).1) ∧
    (allOkEnv.vocabVisibleOk = true ∧ allOkEnv.dashboardShotOk = true) :=
  ⟨(c9_no_unearned_writes vocabFailEnv).2.2.1 rfl,
   (c9_no_unearned_writes allOkEnv).1 (by decide)⟩

theorem run_launch_fail (env : Env) (h : env.launchOk = false) :
    run env = ([(Event.launch, false)], false) := by
  simp [run, andThen_step, h]

theorem run_ctx_fail (env : Env) (h1 : env.launchOk = true)
    (h2 : env.newContextOk = false) :
    run env = ([(Event.launch, true), (Event.newContext, false)], false) := by
  simp [run, andThen_step, h1, h2]

theorem run_page_fail (env : Env) (h1 : env.launchOk = true)
    (h2 : env.newContextOk = true) (h3 : env.newPageOk = false) :
    run env =
      ([(Event.launch, true), (Event.newContext, true), (Event.newPage, false)],
        false) := by
  simp [run, andThen_step, h1, h2, h3]

theorem tryBody_goto_fail (env : Env) (h : env.gotoOk = false) :
    tryBody env = ([(Event.goto targetUrl, false)], false) := by
  simp [tryBody, andThen_step, h]

theorem mem_branchPost {x : Event × Bool} {env : Env}
    (h : x ∈ (andThen (if env.wordSparkVisible then loginBranch env else ([], true))
      (postLogin env)).1) :
    isGoto x.1 = false ∧ x.1 ≠ Event.launch ∧ x.1 ≠ Event.newContext ∧
    x.1 ≠ Event.newPage ∧ x.1 ≠ Event.close := by
  rcases mem_andThen h with h | h
  · split at h
    · rcases mem_loginBranch h with h | h | h | h <;> simp [isGoto, h]
    · simp at h
  · rcases mem_postLogin h with h | h | h | h | h | h <;> simp [isGoto, h]

/-- Claim C10: every run creates at most one browser, one context and
one page, and attempts at most one navigation; any navigation targets
exactly http://localhost:8080/; a fully successful run creates exactly
one of each and navigates exactly once, so every later page transition
comes only from in-page clicks; and when the browser close occurs it
is the last operation of the run, so no handle is used after the
close. -/
theorem c10_single_handles (env : Env) (u : String) (b : Bool) :
    List.count (Event.launch, true) (run env).1 ≤ 1 ∧
    List.count (Event.newContext, true) (run env).1 ≤ 1 ∧
    List.count (Event.newPage, true) (run env).1 ≤ 1 ∧
    gotoCount (run env).1 ≤ 1 ∧
    ((Event.goto u, b) ∈ (run env).1 → u = targetUrl) ∧
    ((run env).2 = true →
      List.count (Event.launch, true) (run env).1 = 1 ∧
      List.count (Event.newContext, true) (run env).1 = 1 ∧
      List.count (Event.newPage, true) (run env).1 = 1 ∧
      gotoCount (run env).1 = 1) ∧
    ((run env).1.getLast? = some (Event.close, true) ∨
      ∀ c, (Event.close, c) ∉ (run env).1) := by
  cases h1 : env.launchOk
  · rw [run_launch_fail env h1]
    refine ⟨by decide, by decide, by decide, by decide, ?_, by decide,
      Or.inr (by decide)⟩
    intro hm
    simp at hm
  cases h2 : env.newContextOk
  · rw [run_ctx_fail env h1 h2]
    refine ⟨by decide, by decide, by decide, by decide, ?_, by decide,
      Or.inr (by decide)⟩
    intro hm
    simp at hm
  cases h3 : env.newPageOk
  · rw [run_page_fail env h1 h2 h3]
    refine ⟨by decide, by decide, by decide, by decide, ?_, by decide,
      Or.inr (by decide)⟩
    intro hm
    simp at hm
  have htr := run_fst_of_reachesTry env ⟨h1, h2, h3⟩
  cases h4 : env.gotoOk
  · have hsnd : (run env).2 = false := by
      rw [run_snd, tryBody_snd, h4]
      simp
    rw [htr, tryBody_goto_fail env h4]
    refine ⟨by decide, by decide, by decide, by decide, ?_, ?_,
      Or.inl (by decide)⟩
    · intro hm
      simp [targetUrl] at hm
      exact hm.1
    · intro hs
      rw [hsnd] at hs
      exact absurd hs Bool.false_ne_true
  have htb := tryBody_fst_of_goto env h4
  have hbp : ∀ x ∈ (andThen
      (if env.wordSparkVisible then loginBranch env else ([], true))
      (postLogin env)).1,
      isGoto x.1 = false ∧ x.1 ≠ Event.launch ∧ x.1 ≠ Event.newContext ∧
      x.1 ≠ Event.newPage ∧ x.1 ≠ Event.close := fun x hx => mem_branchPost hx
  have hnl : (Event.launch, true) ∉ (andThen
      (if env.wordSparkVisible then loginBranch env else ([], true))
      (postLogin env)).1 := fun hm => (hbp _ hm).2.1 rfl
  have hnc : (Event.newContext, true) ∉ (andThen
      (if env.wordSparkVisible then loginBranch env else ([], true))
      (postLogin env)).1 := fun hm => (hbp _ hm).2.2.1 rfl
  have hnp : (Event.newPage, true) ∉ (andThen
      (if env.wordSparkVisible then loginBranch env else ([], true))
      (postLogin env)).1 := fun hm => (hbp _ hm).2.2.2.1 rfl
  have hz : List.countP (fun x => isGoto x.1) (andThen
      (if env.wordSparkVisible then loginBranch env else ([], true))
      (postLogin env)).1 = 0 := by
    rw [List.countP_eq_zero]
    intro x hx
    simp [(hbp x hx).1]
  have hc1 : List.count (Event.launch, true) (run env).1 = 1 := by
    rw [htr, htb]
    simp [List.count_cons, List.count_append, List.count_eq_zero.mpr hnl]
  have hc2 : List.count (Event.newContext, true) (run env).1 = 1 := by
    rw [htr, htb]
    simp [List.count_cons, List.count_append, List.count_eq_zero.mpr hnc]
  have hc3 : List.count (Event.newPage, true) (run env).1 = 1 := by
    rw [htr, htb]
    simp [List.count_cons, List.count_append, List.count_eq_zero.mpr hnp]
  have hc4 : gotoCount (run env).1 = 1 := by
    rw [gotoCount, htr, htb]
    simp [List.countP_cons, List.countP_append, hz,
      show isGoto Event.launch = false from rfl,
      show isGoto Event.newContext = false from rfl,
      show isGoto Event.newPage = false from rfl,
      show isGoto Event.close = false from rfl,
      show isGoto (Event.goto targetUrl) = true from rfl,
      show isGoto (Event.isVisibleCheck "heading" "WordSpark"
        env.wordSparkVisible) = false from rfl]
  refine ⟨le_of_eq hc1, le_of_eq hc2, le_of_eq hc3, le_of_eq hc4, ?_,
    fun _ => ⟨hc1, hc2, hc3, hc4⟩, Or.inl ?_⟩
  · intro hm
    rw [htr, htb] at hm
    rcases List.mem_cons.mp hm with h' | hm
    · simp at h'
    rcases List.mem_cons.mp hm with h' | hm
    · simp at h'
    rcases List.mem_cons.mp hm with h' | hm
    · simp at h'
    rcases List.mem_append.mp hm with hm | hm
    · rcases List.mem_cons.mp hm with h' | hm
      · have := congrArg Prod.fst h'
        simpa using this
      rcases List.mem_cons.mp hm with h' | hm
      · simp at h'
      · have hfalse := (hbp _ hm).1
        simp [isGoto] at hfalse
    · simp at hm
  · rw [htr, htb]
    rw [show ((Event.launch, true) :: (Event.newContext, true) ::
        (Event.newPage, true) ::
        (((Event.goto targetUrl, true) ::
          (Event.isVisibleCheck "heading" "WordSpark" env.wordSparkVisible, true) ::
          (andThen (if env.wordSparkVisible then loginBranch env else ([], true))
            (postLogin env)).1) ++ [(Event.close, true)]) : Trace) =
      ((Event.launch, true) :: (Event.newContext, true) :: (Event.newPage, true) ::
        (Event.goto targetUrl, true) ::
        (Event.isVisibleCheck "heading" "WordSpark" env.wordSparkVisible, true) ::
        (andThen (if env.wordSparkVisible then loginBranch env else ([], true))
          (postLogin env)).1) ++ [(Event.close, true)] from by simp]
    exact List.getLast?_concat _

/-- Witness for claim C10: the successful-run conjunct instantiated at
the all-success environment. -/
theorem c10_single_handles_witness :
    List.count (Event.launch, true) (run allOkEnv).1 = 1 ∧
    List.count (Event.newContext, true) (run allOkEnv).1 = 1 ∧
    List.count (Event.newPage, true) (run allOkEnv).1 = 1 ∧
    gotoCount (run allOkEnv).1 = 1 :=
  (c10_single_handles allOkEnv targetUrl true).2.2.2.2.2.1 (by decide)

end Verify
